import Mathlib

/-!
Shallow embedding of the MailMute analysis-and-execution pipeline
(`MailMuteAlgorithm`, `SmartUnsubscriber` and the outcome classification in
`MailMute.perform_unsubscribe` from `src/main.py`).

Modelling conventions:
* Python strings are Lean `String`s, manipulated at the `Char`-list level so
  that every operation is executable by the kernel.  `str.lower` is modelled
  for the ASCII range (`Char.toLower`), which covers every string constant
  and pattern the program uses.
* Python floats are modelled as rationals; the score arithmetic of
  `calculate_confidence_score` only adds and clamps small decimal constants.
* `datetime` values are opaque: dates are modelled as `Int`, and the
  standard-library parser `email.utils.parsedate_to_datetime` is a parameter
  `pd : String → Option Int` (`none` = the parser raised, which the source
  catches and replaces by "now").
* BeautifulSoup is external: an HTML body is modelled as its parse result
  (`HtmlDoc`): the document text (`get_text()`), the anchors with an href
  (`find_all("a", href=True)`) and the button/input elements of type
  "button", each in document order.  Likewise a fetched page (`Page`) is its
  text plus the text of each `<form>` element.
* The network is a parameter `http : String → HttpResult` mapping a URL to
  the behaviour of `requests.Session.get` on it.
* Python's `list(set(xs))` (dedup with unspecified, hash-seed-dependent
  order) is a parameter `setList` constrained by `IsSetDedup`: it returns
  the distinct elements of its input, each exactly once, in some order.
-/

/-- Python `str.lower()` (ASCII case mapping). -/
def pyLower (s : String) : String := String.mk (s.data.map Char.toLower)

/-- Membership test of Python's `needle in hay` for strings: `needle` occurs
contiguously in `hay`.  Checked position by position. -/
def strContainsL (needle : List Char) : List Char → Bool
  | [] => needle.isPrefixOf []
  | c :: t => needle.isPrefixOf (c :: t) || strContainsL needle t

/-- Python `needle in hay` on strings. -/
def pyIn (needle hay : String) : Bool := strContainsL needle.data hay.data

/-- Python `s.startswith(t)`. -/
def pyStartsWith (s t : String) : Bool := t.data.isPrefixOf s.data

/-- Python `s.endswith(t)` (sliced by characters, as in CPython). -/
def pyEndsWith (s t : String) : Bool := t.data.isSuffixOf s.data

/-- Whitespace as stripped by Python `str.strip()` (ASCII range). -/
def isPyWS (c : Char) : Bool :=
  c == ' ' || c == '\t' || c == '\n' || c == '\r' || c == '\x0b' || c == '\x0c'

/-- Python `str.strip()`: drop whitespace from both ends. -/
def pyStrip (s : String) : String :=
  String.mk (((s.data.dropWhile isPyWS).reverse.dropWhile isPyWS).reverse)

/-!  A tiny matcher for the restricted regular expressions the source feeds
to `re.search`: every pattern in `MailMuteAlgorithm.unsubscribe_patterns` is
a sequence of literal characters, `.?` and `.*` (where `.` matches any
character except a newline, as in Python's default mode).  `matchHereF` asks
whether a pattern matches a prefix of the text; the fuel argument only bounds
the recursion depth, and `matchHere` supplies fuel `|pattern| + |text| + 1`,
which exceeds the longest possible call chain (every step shortens the
combined length of pattern and text). -/

inductive RTok where
  | litc (c : Char)
  | anyOpt
  | anyStar

/-- Does the token pattern match some prefix of the character list?
Fuel-bounded so that the kernel can evaluate it. -/
def matchHereF : Nat → List RTok → List Char → Bool
  | 0, _, _ => false
  | _ + 1, [], _ => true
  | _ + 1, .litc _ :: _, [] => false
  | f + 1, .litc a :: ps, c :: cs => a == c && matchHereF f ps cs
  | f + 1, .anyOpt :: ps, [] => matchHereF f ps []
  | f + 1, .anyOpt :: ps, c :: cs =>
      matchHereF f ps (c :: cs) || (c != '\n' && matchHereF f ps cs)
  | f + 1, .anyStar :: ps, [] => matchHereF f ps []
  | f + 1, .anyStar :: ps, c :: cs =>
      matchHereF f ps (c :: cs) || (c != '\n' && matchHereF f (.anyStar :: ps) cs)

/-- Pattern match at the start of the text, with sufficient fuel. -/
def matchHere (ps : List RTok) (cs : List Char) : Bool :=
  matchHereF (ps.length + cs.length + 1) ps cs

/-- Try the pattern at every start position, as `re.search` does. -/
def reSearchAux (p : List RTok) : List Char → Bool
  | [] => matchHere p []
  | c :: cs => matchHere p (c :: cs) || reSearchAux p cs

/-- Python `re.search(pattern, s) is not None` for the restricted patterns. -/
def re_search (p : List RTok) (s : String) : Bool := reSearchAux p s.data

/-- Literal characters of a pattern. -/
def litTok (s : String) : List RTok := s.data.map RTok.litc

/-- The `self.unsubscribe_patterns` list of `MailMuteAlgorithm.__init__`. -/
def unsubscribe_patterns : List (List RTok) :=
  [ litTok "unsubscribe",
    litTok "opt" ++ [RTok.anyOpt] ++ litTok "out",
    litTok "remove" ++ [RTok.anyStar] ++ litTok "list",
    litTok "stop" ++ [RTok.anyStar] ++ litTok "email",
    litTok "cancel" ++ [RTok.anyStar] ++ litTok "subscription",
    litTok "manage" ++ [RTok.anyStar] ++ litTok "preferences",
    litTok "email" ++ [RTok.anyStar] ++ litTok "settings",
    litTok "notification" ++ [RTok.anyStar] ++ litTok "settings",
    litTok "mailing" ++ [RTok.anyStar] ++ litTok "list" ++ [RTok.anyStar] ++ litTok "remove",
    litTok "leave" ++ [RTok.anyStar] ++ litTok "list",
    litTok "turn" ++ [RTok.anyStar] ++ litTok "off" ++ [RTok.anyStar] ++ litTok "notifications" ]

/-- The `self.sender_blacklist` list of `MailMuteAlgorithm.__init__`. -/
def sender_blacklist : List String :=
  ["noreply", "no-reply", "donotreply", "do-not-reply",
   "newsletter", "marketing", "promo", "deals"]

/-!  Parsing of the `List-Unsubscribe` header
(`MailMuteAlgorithm.parse_list_unsubscribe_header`).  The source uses
`re.search(r'<mailto:([^>]+)>', header)` for the first mailto target and
`re.findall(r'<(https?://[^>]+)>', header)` for all bracketed HTTP(S) URLs
(non-overlapping, left to right). -/

/-- Characters before the first `>`; `none` when there is no `>`. -/
def splitAtGt : List Char → Option (List Char)
  | [] => none
  | c :: cs => if c == '>' then some [] else (splitAtGt cs).map (c :: ·)

/-- Leftmost match of `<mailto:([^>]+)>`: the captured group. -/
def findMailto : List Char → Option String
  | [] => none
  | c :: cs =>
    if ("<mailto:".data).isPrefixOf (c :: cs) then
      match splitAtGt (cs.drop 7) with
      | some content => if content.isEmpty then findMailto cs else some (String.mk content)
      | none => findMailto cs
    else findMailto cs

/-- At a position just after a `<`: the capture of `(https?://[^>]+)` and the
text after the closing `>`, when the regex matches here. -/
def httpAt (cs : List Char) : Option (String × List Char) :=
  match splitAtGt cs with
  | none => none
  | some content =>
    if (("http://".data).isPrefixOf content && decide (content.length ≥ 8)) ||
       (("https://".data).isPrefixOf content && decide (content.length ≥ 9)) then
      some (String.mk content, cs.drop (content.length + 1))
    else none

/-- All non-overlapping matches of `<(https?://[^>]+)>`, left to right, as
`re.findall` produces them.  The fuel only bounds the recursion depth: every
step strictly shortens the scanned list, so fuel `|input|` never runs out. -/
def findHttpLinksF : Nat → List Char → List String
  | 0, _ => []
  | _ + 1, [] => []
  | f + 1, c :: cs =>
    if c == '<' then
      match httpAt cs with
      | some (url, rest) => url :: findHttpLinksF f rest
      | none => findHttpLinksF f cs
    else findHttpLinksF f cs

/-- All bracketed HTTP(S) URLs of a header value. -/
def findHttpLinks (cs : List Char) : List String := findHttpLinksF cs.length cs

/-- The pair `(unsubscribe_email, links)` returned by
`parse_list_unsubscribe_header`. -/
def parse_list_unsubscribe_header (header : String) : Option String × List String :=
  (findMailto header.data, findHttpLinks header.data)

/-!  The HTML body as BeautifulSoup exposes it to the analyzer. -/

/-- An `<a>` element with an `href` attribute: the attribute value and the
element text (`get_text()`). -/
structure HtmlAnchor where
  href : String
  text : String

/-- A `<button>`/`<input>` element with `type="button"`: its text and its
`onclick` attribute value (`''` when absent, as `button.get('onclick','')`). -/
structure HtmlButton where
  text : String
  onclick : String

/-- Parse result of an HTML body: full document text and the elements the
analyzer inspects, in document order. -/
structure HtmlDoc where
  fullText : String
  anchors : List HtmlAnchor
  buttons : List HtmlButton

/-- Leftmost match of `https?://[^\s'\x22]+` inside an onclick attribute:
the URL embedded in the handler, terminated by whitespace or a quote. -/
def isUrlStop (c : Char) : Bool := isPyWS c || c == Char.ofNat 39 || c == Char.ofNat 34

/-- Scan for the first embedded `http(s)://` URL, as
`re.search(r'https?://[^\s\x27\x22]+', onclick)` finds it. -/
def firstUrl : List Char → Option String
  | [] => none
  | c :: cs =>
    if ("http://".data).isPrefixOf (c :: cs) then
      let body := (cs.drop 6).takeWhile (fun x => !isUrlStop x)
      if body.isEmpty then firstUrl cs else some (String.mk ("http://".data ++ body))
    else if ("https://".data).isPrefixOf (c :: cs) then
      let body := (cs.drop 7).takeWhile (fun x => !isUrlStop x)
      if body.isEmpty then firstUrl cs else some (String.mk ("https://".data ++ body))
    else firstUrl cs

/-- MailMuteAlgorithm.extract_smart_unsubscribe_links: an anchor contributes
its href when any pattern matches the lowered href or the stripped lowered
text and the href has an http(s) scheme; a button contributes the first URL
embedded in its onclick when any pattern matches its text or onclick.  In the
source the inner `for pattern` loop breaks at its first hit, which appends at
most once per element, so it equals this `any` test. -/
def extract_smart_unsubscribe_links (doc : HtmlDoc) : List String :=
  (doc.anchors.filterMap fun a =>
    if unsubscribe_patterns.any
        (fun p => re_search p (pyLower a.href) || re_search p (pyLower (pyStrip a.text))) then
      if pyStartsWith a.href "http://" || pyStartsWith a.href "https://" then
        some a.href
      else none
    else none)
  ++
  (doc.buttons.filterMap fun b =>
    if unsubscribe_patterns.any
        (fun p => re_search p (pyLower (pyStrip b.text)) || re_search p b.onclick) then
      firstUrl b.onclick.data
    else none)

/-- MailMuteAlgorithm.extract_text_preview: `soup.get_text()[:500]`. -/
def extract_text_preview (doc : HtmlDoc) : String :=
  String.mk (doc.fullText.data.take 500)

/-!  The message body, as `email.message.Message` exposes it. -/

/-- What `part.get_payload(decode=True)` followed by the utf-8 / latin-1
decode attempts yields for one body part. -/
inductive PartBody where
  /-- Payload present and one of the two decodings succeeds; `doc` is the
  BeautifulSoup parse of the decoded (necessarily non-empty) text. -/
  | html (doc : HtmlDoc)
  /-- Payload present but both decodings raise: the loop `continue`s. -/
  | undecodable
  /-- Falsy payload (`None` or empty): the loop just moves on. -/
  | nopayload

/-- One body part: its content type and payload. -/
structure MsgPart where
  contentType : String
  body : PartBody

/-- A message body: either a single part, or a multipart whose `walk()`
yields the given parts (the multipart containers themselves have
`multipart/*` content types and never match `text/html`). -/
inductive MsgBody where
  | single (p : MsgPart)
  | multi (parts : List MsgPart)

/-- First `text/html` part whose payload decodes (the source `break`s on it;
undecodable or payload-less parts are skipped without aborting). -/
def firstHtmlPart : List MsgPart → Option HtmlDoc
  | [] => none
  | p :: ps =>
    if p.contentType == "text/html" then
      match p.body with
      | .html d => some d
      | _ => firstHtmlPart ps
    else firstHtmlPart ps

/-- MailMuteAlgorithm.extract_html_content; `none` models the empty string
result (no decodable HTML part found). -/
def extract_html_content : MsgBody → Option HtmlDoc
  | .multi parts => firstHtmlPart parts
  | .single p =>
    if p.contentType == "text/html" then
      match p.body with
      | .html d => some d
      | _ => none
    else none

/-- A raw message: the headers the analyzer reads (each absent or present)
and the body. -/
structure EmailMsg where
  fromHdr : Option String
  subjectHdr : Option String
  messageIdHdr : Option String
  dateHdr : Option String
  listUnsubHdr : Option String
  body : MsgBody

/-- Python `s.split(sep)[i]` building block: split at a single character
separator (Python list semantics: `"".split(c) = [""]`). -/
def splitOnChar (sep : Char) : List Char → List (List Char)
  | [] => [[]]
  | c :: cs =>
    if c == sep then [] :: splitOnChar sep cs
    else
      match splitOnChar sep cs with
      | [] => [[c]]
      | g :: gs => (c :: g) :: gs

/-- MailMuteAlgorithm.extract_sender: default "Unknown Sender"; when the value
contains both `<` and `>`, take `sender.split('<')[1].split('>')[0]`. -/
def extract_sender (fromHdr : Option String) : String :=
  let sender := fromHdr.getD "Unknown Sender"
  if sender.data.contains '<' && sender.data.contains '>' then
    String.mk ((splitOnChar '>' ((splitOnChar '<' sender.data).getD 1 [])).getD 0 [])
  else sender

/-- MailMuteAlgorithm.parse_email_date: parse the Date header with the
standard parser, substituting "now" when it raises. -/
def parse_email_date (pd : String → Option Int) (now : Int) (date_str : String) : Int :=
  (pd date_str).getD now

/-- The analyzed candidate (`UnsubscribeInfo` dataclass). -/
structure UnsubscribeInfo where
  email_id : String
  sender : String
  subject : String
  unsubscribe_links : List String
  unsubscribe_email : Option String
  list_unsubscribe_header : String
  confidence_score : ℚ
  email_date : Int
  content_preview : String

/-- MailMuteAlgorithm.calculate_confidence_score.  Each `for ... break` loop
of the source adds its bonus exactly once, at the first hit, so it equals an
`any` test. -/
def calculate_confidence_score (sender subject : String) (unsubscribe_links : List String)
    (content_preview : String) (list_unsubscribe_header : String) : ℚ :=
  let headerScore : ℚ := if list_unsubscribe_header ≠ "" then 4/10 else 0
  let linkScore : ℚ :=
    if unsubscribe_links ≠ [] then
      3/10 + min ((unsubscribe_links.length : ℚ) * (1/10)) (2/10)
    else 0
  let senderScore : ℚ :=
    if sender_blacklist.any (fun t => pyIn t (pyLower sender)) then 1/10 else 0
  let subjectScore : ℚ :=
    if (unsubscribe_patterns.take 5).any (fun p => re_search p (pyLower subject)) then
      1/10
    else 0
  let pattern_matches : ℕ :=
    (unsubscribe_patterns.filter (fun p => re_search p (pyLower content_preview))).length
  min (headerScore + linkScore + senderScore + subjectScore +
       min ((pattern_matches : ℚ) * (5/100)) (2/10)) 1

/-- The `List-Unsubscribe` value the analyzer works with
(`msg.get('List-Unsubscribe', '')`). -/
def headerOf (msg : EmailMsg) : String := msg.listUnsubHdr.getD ""

/-- Links contributed by the header (only parsed when the header is truthy). -/
def headerLinks (msg : EmailMsg) : List String :=
  if headerOf msg ≠ "" then (parse_list_unsubscribe_header (headerOf msg)).2 else []

/-- Mailto target contributed by the header. -/
def headerEmail (msg : EmailMsg) : Option String :=
  if headerOf msg ≠ "" then (parse_list_unsubscribe_header (headerOf msg)).1 else none

/-- Links contributed by the HTML body (empty when there is no decodable
HTML part, since `if html_content:` then skips the extraction). -/
def bodyLinks (msg : EmailMsg) : List String :=
  match extract_html_content msg.body with
  | some d => extract_smart_unsubscribe_links d
  | none => []

/-- The `unsubscribe_links` accumulator right before candidate construction:
header links first, then body links, duplicates included. -/
def rawLinks (msg : EmailMsg) : List String := headerLinks msg ++ bodyLinks msg

/-- The `content_preview` local of `analyze_email_content` (before the final
200-character truncation). -/
def rawPreview (msg : EmailMsg) : String :=
  match extract_html_content msg.body with
  | some d => extract_text_preview d
  | none => ""

/-- MailMuteAlgorithm.analyze_email_content.  `now`/`pd` model the clock and
the standard date parser; `setList` models the unspecified enumeration order
of `list(set(unsubscribe_links))`. -/
def analyze_email_content (now : Int) (pd : String → Option Int)
    (setList : List String → List String) (msg : EmailMsg) : UnsubscribeInfo :=
  let sender := extract_sender msg.fromHdr
  let subject := msg.subjectHdr.getD "No Subject"
  let content_preview := rawPreview msg
  { email_id := msg.messageIdHdr.getD ""
    sender := sender
    subject := subject
    unsubscribe_links := setList (rawLinks msg)
    unsubscribe_email := headerEmail msg
    list_unsubscribe_header := headerOf msg
    confidence_score :=
      calculate_confidence_score sender subject (rawLinks msg) content_preview (headerOf msg)
    email_date := parse_email_date pd now (msg.dateHdr.getD "")
    content_preview :=
      if content_preview.length > 200 then
        String.mk (content_preview.data.take 200) ++ "..."
      else content_preview }

/-- Admissibility of an enumeration of `list(set(xs))`: the result lists the
distinct elements of `xs`, each exactly once, in some order.  Any run of the
Python program realises one such enumeration; which one depends on the
per-process string hash seed. -/
def IsSetDedup (f : List String → List String) : Prop :=
  ∀ xs : List String, (f xs).Nodup ∧ ∀ x, x ∈ f xs ↔ x ∈ xs

/-!  The executor (`SmartUnsubscriber`) and the outcome classification used
by `MailMute.perform_unsubscribe`. -/

/-- A fetched page as the executor inspects it: the response text and the
text (`get_text()`) of each `<form>` element on it, in document order. -/
structure Page where
  text : String
  forms : List String

/-- Behaviour of `self.session.get(link, timeout=10, allow_redirects=True)`
for one URL: a response with a status code and page, a
`requests.exceptions.Timeout`, or another `requests.exceptions.RequestException`. -/
inductive HttpResult where
  | resp (status : Nat) (page : Page)
  | timeout
  | reqError (msg : String)

/-- Decimal rendering of a non-negative integer, as Python's `str`/f-string
interpolation produces it.  Fuel-bounded (fuel `n + 1` always suffices since
the argument shrinks by a factor of ten each step). -/
def natToDecF : Nat → Nat → List Char
  | 0, _ => []
  | f + 1, n =>
    if n < 10 then [Char.ofNat (48 + n)]
    else natToDecF f (n / 10) ++ [Char.ofNat (48 + n % 10)]

/-- Python `str(n)` for a natural number. -/
def natToDec (n : Nat) : String := String.mk (natToDecF (n + 1) n)

/-- The `success_indicators` list of
`SmartUnsubscriber.check_unsubscribe_success`. -/
def success_indicators : List String :=
  ["successfully unsubscribed", "removed from list", "unsubscribe successful",
   "email preferences updated", "subscription cancelled"]

/-- SmartUnsubscriber.check_unsubscribe_success: case-insensitive substring
scan of the response text. -/
def check_unsubscribe_success (html_content : String) : Bool :=
  success_indicators.any (fun indicator => pyIn indicator (pyLower html_content))

/-- SmartUnsubscriber.handle_unsubscribe_forms: report the first form whose
text mentions an unsubscribe word; the message does not depend on which form
matched, so the first-match loop equals an `any` test. -/
def handle_unsubscribe_forms (page : Page) (base_url : String) : Option String :=
  if page.forms.any
      (fun form_text =>
        ["unsubscribe", "remove", "opt out"].any (fun w => pyIn w (pyLower form_text))) then
    some ("Found unsubscribe form at " ++ base_url ++
          " (auto-submission not implemented for safety)")
  else none

/-- SmartUnsubscriber.unsubscribe_via_email (a capability stub). -/
def unsubscribe_via_email (email_address : String) : String :=
  "Email unsubscribe request would be sent to: " ++ email_address

/-- SmartUnsubscriber.unsubscribe_via_link: classify the outcome of one GET.
Total: every exception the request can raise is caught and classified. -/
def unsubscribe_via_link (http : String → HttpResult) (link : String) : String :=
  match http link with
  | .resp 200 page =>
    if check_unsubscribe_success page.text then
      "Successfully unsubscribed via: " ++ link
    else
      match handle_unsubscribe_forms page link with
      | some form_result => form_result
      | none => "Visited " ++ link ++ " but unclear if unsubscribed successfully"
  | .resp status _ => "Failed to visit " ++ link ++ " - Status Code: " ++ natToDec status
  | .timeout => "Timeout accessing: " ++ link
  | .reqError e => "Error accessing " ++ link ++ ": " ++ e

/-- The `for i, link in enumerate(...)` loop of `SmartUnsubscriber.unsubscribe`
(0-based `i`, labels `link_<i+1>`), with the `break` as soon as an outcome
text contains `'success'` (case-insensitively). -/
def unsubscribeLinksLoop (http : String → HttpResult) : List String → Nat → List (String × String)
  | [], _ => []
  | link :: rest, i =>
    let result := unsubscribe_via_link http link
    ("link_" ++ natToDec (i + 1), result) ::
      (if strContainsL "success".data (pyLower result).data then []
       else unsubscribeLinksLoop http rest (i + 1))

/-- SmartUnsubscriber.unsubscribe: the `results` dict in insertion order.
The synthetic email outcome is recorded only when the header is truthy and a
mailto target was parsed; then each link is attempted in stored order until
one outcome signals success. -/
def unsubscribe (http : String → HttpResult) (info : UnsubscribeInfo) :
    List (String × String) :=
  (if info.list_unsubscribe_header ≠ "" then
    match info.unsubscribe_email with
    | some addr => [("email", unsubscribe_via_email addr)]
    | none => []
  else []) ++ unsubscribeLinksLoop http info.unsubscribe_links 0

/-- Per-outcome success classification of `MailMute.perform_unsubscribe`
(line 1476): the outcome text contains `'success'` case-insensitively. -/
def outcomeSucceeded (r : String) : Bool := strContainsL "success".data (pyLower r).data

/-- Candidate-level success: any outcome succeeded
(`any('success' in str(r).lower() for r in result.values())`). -/
def overallSuccess (results : List (String × String)) : Bool :=
  results.any (fun pr => outcomeSucceeded pr.2)

/-!  Helper lemmas about the string model. -/

lemma pyLower_data (s : String) : (pyLower s).data = s.data.map Char.toLower := rfl

lemma natToDec_data (n : Nat) : (natToDec n).data = natToDecF (n + 1) n := rfl

lemma pfxBool_iff {l₁ l₂ : List Char} : l₁.isPrefixOf l₂ = true ↔ l₁ <+: l₂ :=
   List.isPrefixOf_iff_prefix

lemma strContainsL_of_pfx {n hay : List Char} (h : n.isPrefixOf hay = true) :
    strContainsL n hay = true := by
  cases hay with
  | nil => simpa [strContainsL] using h
  | cons c t => simp [strContainsL, h]

lemma strContainsL_append_right {n : List Char} (xs : List Char) {ys : List Char}
    (h : strContainsL n ys = true) : strContainsL n (xs ++ ys) = true := by
  induction xs with
  | nil => simpa using h
  | cons x t ih => simp [strContainsL, ih]

lemma pfx_of_pfx_append_of_le {n xs ys : List Char} (h : n <+: xs ++ ys)
    (hlen : n.length ≤ xs.length) : n <+: xs := by
  have hxy : (xs ++ ys).take n.length = xs.take n.length := by
    rw [List.take_append_eq_append_take, Nat.sub_eq_zero_of_le hlen]
    simp
  rw [List.prefix_iff_eq_take] at h ⊢
  rw [← hxy]
  exact h

lemma pfx_append_split {n xs ys : List Char} (h : n <+: xs ++ ys)
    (hlen : xs.length < n.length) : xs <+: n ∧ n.drop xs.length <+: ys := by
  obtain ⟨t, ht⟩ := h
  constructor
  · rw [List.prefix_iff_eq_take]
    have h1 : (n ++ t).take xs.length = n.take xs.length := by
      rw [List.take_append_eq_append_take, Nat.sub_eq_zero_of_le (le_of_lt hlen)]
      simp
    calc xs = (xs ++ ys).take xs.length := by rw [List.take_left]
    _ = (n ++ t).take xs.length := by rw [ht]
    _ = n.take xs.length := h1
  · refine ⟨t, ?_⟩
    have h2 : (n ++ t).drop xs.length = n.drop xs.length ++ t := by
      rw [List.drop_append_eq_append_drop, Nat.sub_eq_zero_of_le (le_of_lt hlen)]
      simp
    calc n.drop xs.length ++ t = (n ++ t).drop xs.length := h2.symm
    _ = (xs ++ ys).drop xs.length := by rw [ht]
    _ = ys := by rw [List.drop_left]

/-- Where can a substring occurrence of `n` in `xs ++ ys` sit: inside `xs`,
inside `ys`, or spanning the boundary (a non-trivial prefix of `n` is a
suffix of `xs` and the rest of `n` is a prefix of `ys`). -/
lemma contains_append_cases {n : List Char} (xs ys : List Char)
    (h : strContainsL n (xs ++ ys) = true) :
    strContainsL n xs = true ∨ strContainsL n ys = true ∨
      ∃ k, 0 < k ∧ k < n.length ∧ n.take k <:+ xs ∧ n.drop k <+: ys := by
  induction xs with
  | nil => exact Or.inr (Or.inl (by simpa using h))
  | cons x t ih =>
    have h' : n.isPrefixOf (x :: (t ++ ys)) = true ∨ strContainsL n (t ++ ys) = true := by
      simpa [strContainsL, Bool.or_eq_true] using h
    rcases h' with hp | hr
    · have hp' : n <+: (x :: t) ++ ys := pfxBool_iff.mp hp
      by_cases hlen : n.length ≤ (x :: t).length
      · exact Or.inl (strContainsL_of_pfx (pfxBool_iff.mpr (pfx_of_pfx_append_of_le hp' hlen)))
      · obtain ⟨h1, h2⟩ := pfx_append_split hp' (by omega)
        refine Or.inr (Or.inr ⟨(x :: t).length, by simp, by omega, ?_, h2⟩)
        have he : n.take (x :: t).length = x :: t := (List.prefix_iff_eq_take.mp h1).symm
        rw [he]
    · rcases ih hr with hxs | hys | ⟨k, hk0, hkn, hsuf, hpre⟩
      · refine Or.inl ?_
        have hstep : strContainsL n (x :: t) = (n.isPrefixOf (x :: t) || strContainsL n t) := rfl
        simp [hstep, hxs]
      · exact Or.inr (Or.inl hys)
      · exact Or.inr (Or.inr ⟨k, hk0, hkn, hsuf.trans (List.suffix_cons x t), hpre⟩)

lemma pfx_false_of_head_ne {c₀ : Char} {n hay : List Char}
    (hne : ∀ c ∈ hay, c ≠ c₀) : (c₀ :: n).isPrefixOf hay = false := by
  cases hay with
  | nil => rfl
  | cons h t =>
    have hne' : ¬(c₀ = h) := fun e => hne h (by simp) e.symm
    simp [List.isPrefixOf, hne']

lemma contains_false_of_head_notin {c₀ : Char} {n hay : List Char}
    (hne : ∀ c ∈ hay, c ≠ c₀) : strContainsL (c₀ :: n) hay = false := by
  induction hay with
  | nil => rfl
  | cons h t ih =>
    have h1 : (c₀ :: n).isPrefixOf (h :: t) = false := pfx_false_of_head_ne hne
    have h2 : strContainsL (c₀ :: n) t = false :=
      ih (fun c hc => hne c (List.mem_cons_of_mem _ hc))
    simp [strContainsL, h1, h2]

lemma natToDecF_mem_digits : ∀ f n c, c ∈ natToDecF f n → c ∈ "0123456789".data := by
  intro f
  induction f with
  | zero => intro n c hc; simp [natToDecF] at hc
  | succ f ih =>
    intro n c hc
    by_cases h : n < 10
    · simp [natToDecF, h] at hc
      subst hc
      interval_cases n <;> decide
    · simp [natToDecF, h] at hc
      rcases hc with hc | hc
      · exact ih _ _ hc
      · subst hc
        have h10 : n % 10 < 10 := Nat.mod_lt _ (by omega)
        revert h10
        generalize n % 10 = m
        intro h10
        interval_cases m <;> decide

lemma natToDec_lower_digits (n : Nat) :
    ∀ c ∈ (pyLower (natToDec n)).data, c ∈ "0123456789".data := by
  intro c hc
  rw [pyLower_data, natToDec_data] at hc
  obtain ⟨d, hd, rfl⟩ := List.mem_map.mp hc
  have hd' : d ∈ "0123456789".data := natToDecF_mem_digits _ _ _ hd
  fin_cases hd' <;> decide

lemma success_not_in_lower_digits (n : Nat) :
    strContainsL "success".data (pyLower (natToDec n)).data = false := by
  have hne : ∀ c ∈ (pyLower (natToDec n)).data, c ≠ 's' := by
    intro c hc he
    subst he
    exact absurd (natToDec_lower_digits n _ hc) (by decide)
  exact contains_false_of_head_notin hne

/-!  Classification of the four outcome-text shapes of
`unsubscribe_via_link`, for an arbitrary link URL. -/

lemma success_text_is_success (l : String) :
    outcomeSucceeded ("Successfully unsubscribed via: " ++ l) = true := by
  unfold outcomeSucceeded
  rw [pyLower_data, String.data_append, List.map_append]
  apply strContainsL_of_pfx
  apply pfxBool_iff.mpr
  have h1 : ("Successfully unsubscribed via: ".data.map Char.toLower) =
      "success".data ++ "fully unsubscribed via: ".data := by decide
  rw [h1, List.append_assoc]
  exact List.prefix_append _ _

lemma unclear_text_is_success (l : String) :
    outcomeSucceeded ("Visited " ++ l ++ " but unclear if unsubscribed successfully") = true := by
  unfold outcomeSucceeded
  rw [pyLower_data, String.data_append, String.data_append, List.map_append,
    List.map_append, List.append_assoc]
  apply strContainsL_append_right
  apply strContainsL_append_right
  decide

lemma timeout_text_not_success {l : String}
    (hl : strContainsL "success".data (pyLower l).data = false) :
    outcomeSucceeded ("Timeout accessing: " ++ l) = false := by
  unfold outcomeSucceeded
  rw [pyLower_data, String.data_append, List.map_append]
  have hA : ("Timeout accessing: ".data.map Char.toLower) = "timeout accessing: ".data := by
    decide
  rw [hA, ← pyLower_data]
  by_contra hb
  rw [Bool.not_eq_false] at hb
  rcases contains_append_cases _ _ hb with h1 | h2 | ⟨k, hk0, hkn, hsuf, -⟩
  · exact absurd h1 (by decide)
  · exact absurd h2 (by rw [hl]; exact Bool.false_ne_true)
  · have hk7 : k < 7 := by simpa using hkn
    interval_cases k <;> exact absurd hsuf (by decide)

lemma failed_text_not_success {l : String} (code : Nat)
    (hl : strContainsL "success".data (pyLower l).data = false) :
    outcomeSucceeded ("Failed to visit " ++ l ++ " - Status Code: " ++ natToDec code)
      = false := by
  unfold outcomeSucceeded
  rw [pyLower_data, String.data_append, String.data_append, String.data_append,
    List.map_append, List.map_append, List.map_append]
  have hA : ("Failed to visit ".data.map Char.toLower) = "failed to visit ".data := by decide
  have hB : (" - Status Code: ".data.map Char.toLower) = " - status code: ".data := by decide
  rw [hA, hB, ← pyLower_data, ← pyLower_data, List.append_assoc, List.append_assoc]
  by_contra hb
  rw [Bool.not_eq_false] at hb
  rcases contains_append_cases _ _ hb with h1 | h2 | ⟨k, hk0, hkn, hsuf, -⟩
  · exact absurd h1 (by decide)
  · rcases contains_append_cases _ _ h2 with g1 | g2 | ⟨k, hk0, hkn, -, hpre⟩
    · exact absurd g1 (by rw [hl]; exact Bool.false_ne_true)
    · rcases contains_append_cases _ _ g2 with f1 | f2 | ⟨k, hk0, hkn, hsuf, -⟩
      · exact absurd f1 (by decide)
      · exact absurd f2 (by rw [success_not_in_lower_digits code]; exact Bool.false_ne_true)
      · have hk7 : k < 7 := by simpa using hkn
        interval_cases k <;> exact absurd hsuf (by decide)
    · have hk7 : k < 7 := by simpa using hkn
      interval_cases k <;>
        exact absurd (pfx_of_pfx_append_of_le hpre (by decide)) (by decide)
  · have hk7 : k < 7 := by simpa using hkn
    interval_cases k <;> exact absurd hsuf (by decide)

/-!  Admissible enumerations of `list(set(...))`. -/

lemma isSetDedup_dedup : IsSetDedup (fun xs => xs.dedup) :=
  fun xs => ⟨List.nodup_dedup xs, fun _ => List.mem_dedup⟩

lemma isSetDedup_dedupRev : IsSetDedup (fun xs => xs.dedup.reverse) :=
  fun xs => ⟨by simp [List.nodup_dedup xs], fun x => by simp [List.mem_dedup]⟩

/-- Every confidence score lands in `[0, 1]`: all five contributions are
non-negative and the raw sum is clamped by the final `min`. -/
lemma score_in_unit_interval (sender subject : String) (links : List String)
    (preview header : String) :
    0 ≤ calculate_confidence_score sender subject links preview header ∧
      calculate_confidence_score sender subject links preview header ≤ 1 := by
  unfold calculate_confidence_score
  refine ⟨le_min ?_ (by norm_num), min_le_right _ _⟩
  have hmin : (0:ℚ) ≤ min (((unsubscribe_patterns.filter
      (fun p => re_search p (pyLower preview))).length : ℚ) * (5/100)) (2/10) :=
    le_min (by positivity) (by norm_num)
  have hmin2 : (0:ℚ) ≤ min ((links.length : ℚ) * (1/10)) (2/10) :=
    le_min (by positivity) (by norm_num)
  split_ifs <;> nlinarith [hmin, hmin2]

/-- C1: for every input message (and any clock, date parser and set
enumeration), the confidence score of the candidate returned by the analyzer
lies in [0, 1]: every additive contribution is non-negative and the raw sum
is clamped to 1 at the end. -/
theorem confidence_in_unit_interval (now : Int) (pd : String → Option Int)
    (setList : List String → List String) (msg : EmailMsg) :
    0 ≤ (analyze_email_content now pd setList msg).confidence_score ∧
      (analyze_email_content now pd setList msg).confidence_score ≤ 1 :=
  score_in_unit_interval (extract_sender msg.fromHdr) (msg.subjectHdr.getD "No Subject")
    (rawLinks msg) (rawPreview msg) (headerOf msg)

/-- C8: a message with no List-Unsubscribe header, no extracted links, a
sender containing no blacklist substring, a subject matching none of the
first five unsubscribe patterns and a content preview matching no
unsubscribe pattern scores exactly 0. -/
theorem zero_signal_confidence_zero (now : Int) (pd : String → Option Int)
    (setList : List String → List String) (msg : EmailMsg)
    (hheader : headerOf msg = "")
    (hlinks : rawLinks msg = [])
    (hsender : sender_blacklist.any
        (fun t => pyIn t (pyLower (extract_sender msg.fromHdr))) = false)
    (hsubject : (unsubscribe_patterns.take 5).any
        (fun p => re_search p (pyLower (msg.subjectHdr.getD "No Subject"))) = false)
    (hpreview : unsubscribe_patterns.any
        (fun p => re_search p (pyLower (rawPreview msg))) = false) :
    (analyze_email_content now pd setList msg).confidence_score = 0 := by
  have hfil : unsubscribe_patterns.filter (fun p => re_search p (pyLower (rawPreview msg)))
      = [] := by
    rw [List.filter_eq_nil_iff]
    intro p hp
    simpa using List.any_eq_false.mp hpreview p hp
  have hproj : (analyze_email_content now pd setList msg).confidence_score =
      calculate_confidence_score (extract_sender msg.fromHdr) (msg.subjectHdr.getD "No Subject")
        (rawLinks msg) (rawPreview msg) (headerOf msg) := rfl
  rw [hproj]
  unfold calculate_confidence_score
  rw [hfil]
  simp [hheader, hlinks, hsender, hsubject]
  norm_num

/-- A message with no headers at all and no decodable payload. -/
def msgEmpty : EmailMsg :=
  ⟨none, none, none, none, none, .single ⟨"text/plain", .nopayload⟩⟩

theorem zero_signal_confidence_zero_witness :
    (analyze_email_content 0 (fun _ => none) (fun xs => xs.dedup) msgEmpty).confidence_score
      = 0 :=
  zero_signal_confidence_zero 0 (fun _ => none) (fun xs => xs.dedup) msgEmpty
    (by decide) (by decide) (by decide) (by decide) (by decide)

/-!  C5: how the link bonus counts links.  In the source,
`calculate_confidence_score` is called on the `unsubscribe_links` accumulator
BEFORE `list(set(...))`, so the bonus counts link occurrences with
multiplicity, not the distinct links stored in the candidate. -/

/-- An HTML body whose one unsubscribe URL appears in two anchors. -/
def docDup : HtmlDoc :=
  ⟨"click click",
   [⟨"http://x.example/unsubscribe", "click"⟩, ⟨"http://x.example/unsubscribe", "click"⟩],
   []⟩

/-- A message with no header signal, a neutral sender and subject, and the
duplicated body anchor. -/
def msgDup : EmailMsg :=
  ⟨some "alice@example.org", some "Hello", some "id-1", none, none,
   .single ⟨"text/html", .html docDup⟩⟩

/-- The confidence the analyzer assigns to `msgDup` is 0.5: no contribution
except the link bonus, which sees the raw two-element accumulator. -/
lemma msgDup_confidence :
    (analyze_email_content 0 (fun _ => none) (fun xs => xs.dedup)
        msgDup).confidence_score = 1/2 := by
  have hproj : (analyze_email_content 0 (fun _ => none) (fun xs => xs.dedup)
      msgDup).confidence_score =
      calculate_confidence_score (extract_sender msgDup.fromHdr)
        (msgDup.subjectHdr.getD "No Subject") (rawLinks msgDup) (rawPreview msgDup)
        (headerOf msgDup) := rfl
  have e1 : extract_sender msgDup.fromHdr = "alice@example.org" := by decide
  have e3 : rawLinks msgDup =
      ["http://x.example/unsubscribe", "http://x.example/unsubscribe"] := by decide
  have e4 : rawPreview msgDup = "click click" := by decide
  rw [hproj, e1, e3, e4]
  show calculate_confidence_score "alice@example.org" "Hello" _ "click click" "" = 1/2
  have e6 : (unsubscribe_patterns.filter
      (fun p => re_search p (pyLower "click click"))).length = 0 := by decide
  have e7 : sender_blacklist.any (fun t => pyIn t (pyLower "alice@example.org")) = false := by
    decide
  have e8 : (unsubscribe_patterns.take 5).any
      (fun p => re_search p (pyLower "Hello")) = false := by decide
  unfold calculate_confidence_score
  rw [e6, e7, e8]
  rw [if_pos (by simp :
    (["http://x.example/unsubscribe", "http://x.example/unsubscribe"] : List String) ≠ []),
    if_neg (by simp : ¬("" : String) ≠ "")]
  norm_num [min_def]

/-- C5 counterexample: for `msgDup` every non-link contribution is 0 and the
candidate stores exactly one distinct link, yet the confidence is 0.5 (raw
occurrence count 2), not the 0.3 + 1·0.1 the claim computes from the number
of distinct stored links. -/
theorem link_bonus_distinct_counterexample :
    (analyze_email_content 0 (fun _ => none) (fun xs => xs.dedup)
        msgDup).unsubscribe_links.length = 1 ∧
    (analyze_email_content 0 (fun _ => none) (fun xs => xs.dedup)
        msgDup).confidence_score ≠
      3/10 + min (((analyze_email_content 0 (fun _ => none) (fun xs => xs.dedup)
        msgDup).unsubscribe_links.length : ℚ) * (1/10)) (2/10) := by
  have hlen : (analyze_email_content 0 (fun _ => none) (fun xs => xs.dedup)
      msgDup).unsubscribe_links.length = 1 := by decide
  refine ⟨hlen, ?_⟩
  rw [hlen, msgDup_confidence]
  norm_num [min_def]

/-- C5 amended: when at least one link occurrence was extracted, the
confidence equals the score of the same message without links plus
`0.3 + min(numLinks·0.1, 0.2)` (clamped to 1), where `numLinks` counts the
extracted link occurrences BEFORE deduplication (header links plus
body-matched links, duplicates included), not the distinct stored links. -/
theorem link_bonus_raw_count (now : Int) (pd : String → Option Int)
    (setList : List String → List String) (msg : EmailMsg)
    (h : rawLinks msg ≠ []) :
    (analyze_email_content now pd setList msg).confidence_score =
      min (calculate_confidence_score (extract_sender msg.fromHdr)
            (msg.subjectHdr.getD "No Subject") [] (rawPreview msg) (headerOf msg) +
          (3/10 + min (((rawLinks msg).length : ℚ) * (1/10)) (2/10))) 1 := by
  have hproj : (analyze_email_content now pd setList msg).confidence_score =
      calculate_confidence_score (extract_sender msg.fromHdr) (msg.subjectHdr.getD "No Subject")
        (rawLinks msg) (rawPreview msg) (headerOf msg) := rfl
  rw [hproj]
  unfold calculate_confidence_score
  rw [if_pos h, if_neg (by simp : ¬(([] : List String) ≠ []))]
  have hH : (if headerOf msg ≠ "" then (4:ℚ)/10 else 0) ≤ 4/10 := by
    split_ifs <;> norm_num
  have hS : (if sender_blacklist.any (fun t => pyIn t (pyLower (extract_sender msg.fromHdr)))
      then (1:ℚ)/10 else 0) ≤ 1/10 := by
    split_ifs <;> norm_num
  have hJ : (if (unsubscribe_patterns.take 5).any
        (fun p => re_search p (pyLower (msg.subjectHdr.getD "No Subject")))
      then (1:ℚ)/10 else 0) ≤ 1/10 := by
    split_ifs <;> norm_num
  have hP : min (((unsubscribe_patterns.filter
      (fun p => re_search p (pyLower (rawPreview msg)))).length : ℚ) * (5/100)) (2/10)
      ≤ 2/10 := min_le_right _ _
  have hsum : (if headerOf msg ≠ "" then (4:ℚ)/10 else 0) + 0 +
      (if sender_blacklist.any (fun t => pyIn t (pyLower (extract_sender msg.fromHdr)))
        then (1:ℚ)/10 else 0) +
      (if (unsubscribe_patterns.take 5).any
          (fun p => re_search p (pyLower (msg.subjectHdr.getD "No Subject")))
        then (1:ℚ)/10 else 0) +
      min (((unsubscribe_patterns.filter
          (fun p => re_search p (pyLower (rawPreview msg)))).length : ℚ) * (5/100)) (2/10)
      ≤ 1 := by linarith
  rw [min_eq_left hsum]
  ring_nf

theorem link_bonus_raw_count_witness :
    rawLinks msgDup ≠ [] ∧
    (analyze_email_content 0 (fun _ => none) (fun xs => xs.dedup) msgDup).confidence_score =
      min (calculate_confidence_score (extract_sender msgDup.fromHdr)
            (msgDup.subjectHdr.getD "No Subject") [] (rawPreview msgDup) (headerOf msgDup) +
          (3/10 + min (((rawLinks msgDup).length : ℚ) * (1/10)) (2/10))) 1 :=
  ⟨by decide,
   link_bonus_raw_count 0 (fun _ => none) (fun xs => xs.dedup) msgDup (by decide)⟩

/-- C6: if a URL appears both among the List-Unsubscribe header links and
among the pattern-matched body links, the stored candidate links contain it
exactly once (for any admissible enumeration of `list(set(...))`). -/
theorem dedup_header_body_once (now : Int) (pd : String → Option Int)
    (setList : List String → List String) (msg : EmailMsg)
    (hset : IsSetDedup setList) (url : String)
    (h1 : url ∈ headerLinks msg) (_h2 : url ∈ bodyLinks msg) :
    (analyze_email_content now pd setList msg).unsubscribe_links.count url = 1 := by
  have hmem : url ∈ rawLinks msg := List.mem_append.mpr (Or.inl h1)
  obtain ⟨hnd, hiff⟩ := hset (rawLinks msg)
  exact List.count_eq_one_of_mem hnd ((hiff url).mpr hmem)

/-- An HTML body with one matching unsubscribe anchor. -/
def docShare : HtmlDoc := ⟨"Unsubscribe", [⟨"https://shop.example/u", "Unsubscribe"⟩], []⟩

/-- A message whose header URL coincides with the body anchor URL. -/
def msgShare : EmailMsg :=
  ⟨some "Deals <promo@shop.example>", some "50% off", some "id-2", none,
   some "<mailto:unsub@shop.example>, <https://shop.example/u>",
   .single ⟨"text/html", .html docShare⟩⟩

theorem dedup_header_body_once_witness :
    "https://shop.example/u" ∈ headerLinks msgShare ∧
    "https://shop.example/u" ∈ bodyLinks msgShare ∧
    (analyze_email_content 0 (fun _ => none) (fun xs => xs.dedup)
      msgShare).unsubscribe_links.count "https://shop.example/u" = 1 :=
  ⟨by decide, by decide,
   dedup_header_body_once 0 (fun _ => none) (fun xs => xs.dedup) msgShare
     isSetDedup_dedup "https://shop.example/u" (by decide) (by decide)⟩

/-!  C7: the stored preview.  The final truncation appends "..." only when
the extracted preview exceeds 200 characters; but an untruncated preview can
itself end in "...", so "untruncated previews never end with the ellipsis
marker" fails. -/

lemma pyEndsWith_append (x : String) : pyEndsWith (x ++ "...") "..." = true := by
  unfold pyEndsWith
  rw [String.data_append]
  exact List.isSuffixOf_iff_suffix.mpr (List.suffix_append _ _)

/-- A body whose text is short and naturally ends with "...". -/
def msgDots : EmailMsg :=
  ⟨some "a@b.example", some "Hi", some "id-3", none, none,
   .single ⟨"text/html", .html ⟨"Wait...", [], []⟩⟩⟩

/-- C7 counterexample: `msgDots` has an extracted preview of 7 characters
(not truncated), yet its stored preview ends with the ellipsis marker. -/
theorem preview_ellipsis_counterexample :
    (rawPreview msgDots).length ≤ 200 ∧
    pyEndsWith (analyze_email_content 0 (fun _ => none) (fun xs => xs.dedup)
      msgDots).content_preview "..." = true := by
  constructor
  · decide
  · decide

/-- C7 amended: the stored preview never exceeds 203 characters; when the
extracted preview exceeds 200 characters the stored preview is its first 200
characters followed by "..." (so it ends with the ellipsis marker); when it
does not, the stored preview is the extracted preview verbatim (which may or
may not itself end in "..."). -/
theorem preview_bounds (now : Int) (pd : String → Option Int)
    (setList : List String → List String) (msg : EmailMsg) :
    (analyze_email_content now pd setList msg).content_preview.length ≤ 203 ∧
    ((rawPreview msg).length > 200 →
      (analyze_email_content now pd setList msg).content_preview =
        String.mk ((rawPreview msg).data.take 200) ++ "..." ∧
      pyEndsWith (analyze_email_content now pd setList msg).content_preview "..." = true) ∧
    ((rawPreview msg).length ≤ 200 →
      (analyze_email_content now pd setList msg).content_preview = rawPreview msg) := by
  have hproj : (analyze_email_content now pd setList msg).content_preview =
      (if (rawPreview msg).length > 200 then
        String.mk ((rawPreview msg).data.take 200) ++ "..."
      else rawPreview msg) := rfl
  refine ⟨?_, fun h => ?_, fun h => ?_⟩
  · rw [hproj]
    by_cases h : (rawPreview msg).length > 200
    · rw [if_pos h, String.length_append]
      have h200 : (String.mk ((rawPreview msg).data.take 200)).length = 200 := by
        show ((rawPreview msg).data.take 200).length = 200
        rw [List.length_take]
        have hd : 200 < (rawPreview msg).data.length := h
        omega
      rw [h200]
      have h3 : ("..." : String).length = 3 := rfl
      omega
    · rw [if_neg h]
      omega
  · rw [hproj, if_pos h]
    exact ⟨rfl, pyEndsWith_append _⟩
  · rw [hproj, if_neg (by omega)]

/-- A body whose text is 250 copies of a letter, forcing truncation. -/
def msgLong : EmailMsg :=
  ⟨some "a@b.example", some "Hi", some "id-4", none, none,
   .single ⟨"text/html", .html ⟨String.mk (List.replicate 250 'a'), [], []⟩⟩⟩

set_option maxRecDepth 4000 in
theorem preview_bounds_witness :
    (analyze_email_content 0 (fun _ => none) (fun xs => xs.dedup) msgLong).content_preview =
      String.mk ((rawPreview msgLong).data.take 200) ++ "..." ∧
    pyEndsWith (analyze_email_content 0 (fun _ => none) (fun xs => xs.dedup)
      msgLong).content_preview "..." = true :=
  (preview_bounds 0 (fun _ => none) (fun xs => xs.dedup) msgLong).2.1 (by decide)

/-- C9: malformed inputs never abort the analysis (the model is a total
function) and every affected field degrades to its safe default: missing
From gives "Unknown Sender", missing Subject gives the placeholder, a date
the parser rejects falls back to "now", and with no decodable HTML part the
preview is empty and (absent a header) the stored links are empty. -/
theorem malformed_defaults (now : Int) (pd : String → Option Int)
    (setList : List String → List String) (msg : EmailMsg)
    (hset : IsSetDedup setList) :
    (msg.fromHdr = none →
      (analyze_email_content now pd setList msg).sender = "Unknown Sender") ∧
    (msg.subjectHdr = none →
      (analyze_email_content now pd setList msg).subject = "No Subject") ∧
    (msg.messageIdHdr = none →
      (analyze_email_content now pd setList msg).email_id = "") ∧
    (pd (msg.dateHdr.getD "") = none →
      (analyze_email_content now pd setList msg).email_date = now) ∧
    (extract_html_content msg.body = none →
      (analyze_email_content now pd setList msg).content_preview = "") ∧
    (msg.listUnsubHdr = none → extract_html_content msg.body = none →
      (analyze_email_content now pd setList msg).unsubscribe_links = []) := by
  refine ⟨fun hf => ?_, fun hs => ?_, fun hi => ?_, fun hd => ?_, fun hb => ?_,
    fun hl hb => ?_⟩
  · show extract_sender msg.fromHdr = "Unknown Sender"
    rw [hf]
    decide
  · show msg.subjectHdr.getD "No Subject" = "No Subject"
    rw [hs]
    rfl
  · show msg.messageIdHdr.getD "" = ""
    rw [hi]
    rfl
  · show parse_email_date pd now (msg.dateHdr.getD "") = now
    unfold parse_email_date
    rw [hd]
    rfl
  · have hrp : rawPreview msg = "" := by unfold rawPreview; rw [hb]
    show (if (rawPreview msg).length > 200 then
        String.mk ((rawPreview msg).data.take 200) ++ "..." else rawPreview msg) = ""
    rw [hrp]
    decide
  · show setList (rawLinks msg) = []
    have hraw : rawLinks msg = [] := by
      unfold rawLinks headerLinks bodyLinks headerOf
      rw [hl, hb]
      simp
    rw [hraw]
    obtain ⟨-, hiff⟩ := hset []
    exact List.eq_nil_iff_forall_not_mem.mpr (fun x hx => by simpa using (hiff x).mp hx)

/-- A message with no headers whose single HTML part has an undecodable
payload. -/
def msgBad : EmailMsg :=
  ⟨none, none, none, none, none, .single ⟨"text/html", .undecodable⟩⟩

theorem malformed_defaults_witness :
    (analyze_email_content 7 (fun _ => none) (fun xs => xs.dedup) msgBad).sender
      = "Unknown Sender" ∧
    (analyze_email_content 7 (fun _ => none) (fun xs => xs.dedup) msgBad).subject
      = "No Subject" ∧
    (analyze_email_content 7 (fun _ => none) (fun xs => xs.dedup) msgBad).email_id = "" ∧
    (analyze_email_content 7 (fun _ => none) (fun xs => xs.dedup) msgBad).email_date = 7 ∧
    (analyze_email_content 7 (fun _ => none) (fun xs => xs.dedup) msgBad).content_preview
      = "" ∧
    (analyze_email_content 7 (fun _ => none) (fun xs => xs.dedup) msgBad).unsubscribe_links
      = [] := by
  have h := malformed_defaults 7 (fun _ => none) (fun xs => xs.dedup) msgBad isSetDedup_dedup
  exact ⟨h.1 rfl, h.2.1 rfl, h.2.2.1 rfl, h.2.2.2.1 rfl, h.2.2.2.2.1 rfl,
    h.2.2.2.2.2 rfl rfl⟩

/-!  Executor claims. -/

/-- C3: with no mailto target and three links whose first GET returns 200
with a success phrase in the body, the executor records exactly one outcome
and skips the remaining two links. -/
theorem short_circuit_first_success (http : String → HttpResult)
    (info : UnsubscribeInfo) (l1 l2 l3 : String) (pg : Page)
    (hemail : info.unsubscribe_email = none)
    (hlinks : info.unsubscribe_links = [l1, l2, l3])
    (hresp : http l1 = .resp 200 pg)
    (hsucc : check_unsubscribe_success pg.text = true) :
    unsubscribe http info = [("link_1", "Successfully unsubscribed via: " ++ l1)] ∧
    (unsubscribe http info).length = 1 := by
  have hvia : unsubscribe_via_link http l1 = "Successfully unsubscribed via: " ++ l1 := by
    unfold unsubscribe_via_link
    rw [hresp]
    simp [hsucc]
  have hbreak : strContainsL "success".data
      (pyLower (unsubscribe_via_link http l1)).data = true := by
    have := success_text_is_success l1
    unfold outcomeSucceeded at this
    rw [hvia]
    exact this
  have hlab : "link_" ++ natToDec (0 + 1) = "link_1" := by decide
  have hloop : unsubscribeLinksLoop http [l1, l2, l3] 0 =
      [("link_1", unsubscribe_via_link http l1)] := by
    unfold unsubscribeLinksLoop
    simp [hbreak, hlab]
  have hmain : unsubscribe http info = [("link_1", unsubscribe_via_link http l1)] := by
    unfold unsubscribe
    rw [hemail, hlinks, hloop]
    split <;> rfl
  refine ⟨?_, ?_⟩
  · rw [hmain, hvia]
  · rw [hmain]
    rfl

/-- The network of the C3 witness: the first link answers 200 with a
success phrase, everything else times out. -/
def httpW3 : String → HttpResult := fun l =>
  if l = "http://a.example/u" then
    .resp 200 ⟨"You have been successfully unsubscribed.", []⟩
  else .timeout

/-- The candidate of the C3 witness: three links, no mailto target. -/
def infoW3 : UnsubscribeInfo :=
  ⟨"id-w3", "s@x.example", "Subj",
   ["http://a.example/u", "http://b.example", "http://c.example"], none, "", 0, 0, ""⟩

theorem short_circuit_first_success_witness :
    unsubscribe httpW3 infoW3 =
      [("link_1", "Successfully unsubscribed via: http://a.example/u")] ∧
    (unsubscribe httpW3 infoW3).length = 1 := by
  have h := short_circuit_first_success httpW3 infoW3 "http://a.example/u"
    "http://b.example" "http://c.example"
    ⟨"You have been successfully unsubscribed.", []⟩ rfl rfl rfl (by decide)
  exact ⟨h.1.trans (by decide), h.2⟩

/-- C10 (implicit behaviour): a 200 response whose body has neither a success
phrase nor an unsubscribe-related form yields the outcome "Visited ... but
unclear if unsubscribed successfully", whose text contains "success"
case-insensitively (inside "successfully"), so the attempt is classified as
succeeded, makes the candidate overall-successful, and short-circuits all
remaining links. -/
theorem unclear_visit_counts_as_success (http : String → HttpResult)
    (info : UnsubscribeInfo) (link : String) (rest : List String) (pg : Page)
    (hresp : http link = .resp 200 pg)
    (hnosucc : check_unsubscribe_success pg.text = false)
    (hnoform : pg.forms.any (fun form_text =>
        ["unsubscribe", "remove", "opt out"].any
          (fun w => pyIn w (pyLower form_text))) = false)
    (hemail : info.unsubscribe_email = none)
    (hlinks : info.unsubscribe_links = link :: rest) :
    unsubscribe_via_link http link =
      "Visited " ++ link ++ " but unclear if unsubscribed successfully" ∧
    outcomeSucceeded (unsubscribe_via_link http link) = true ∧
    unsubscribe http info = [("link_1", unsubscribe_via_link http link)] ∧
    overallSuccess (unsubscribe http info) = true := by
  have hform : handle_unsubscribe_forms pg link = none := by
    unfold handle_unsubscribe_forms
    rw [if_neg (by rw [hnoform]; simp)]
  have hvia : unsubscribe_via_link http link =
      "Visited " ++ link ++ " but unclear if unsubscribed successfully" := by
    unfold unsubscribe_via_link
    rw [hresp]
    simp [hnosucc, hform]
  have hsucc1 : outcomeSucceeded (unsubscribe_via_link http link) = true := by
    rw [hvia]
    exact unclear_text_is_success link
  have hbreak : strContainsL "success".data
      (pyLower (unsubscribe_via_link http link)).data = true := hsucc1
  have hlab : "link_" ++ natToDec (0 + 1) = "link_1" := by decide
  have hloop : unsubscribeLinksLoop http (link :: rest) 0 =
      [("link_1", unsubscribe_via_link http link)] := by
    unfold unsubscribeLinksLoop
    simp [hbreak, hlab]
  have hmain : unsubscribe http info = [("link_1", unsubscribe_via_link http link)] := by
    unfold unsubscribe
    rw [hemail, hlinks, hloop]
    split <;> rfl
  refine ⟨hvia, hsucc1, hmain, ?_⟩
  rw [hmain]
  unfold overallSuccess
  simp [hsucc1]

/-- The network of the C10 witness: every link answers 200 with an
uninformative page. -/
def httpW10 : String → HttpResult := fun _ => .resp 200 ⟨"hello world", []⟩

/-- The candidate of the C10 witness: two links, no mailto target. -/
def infoW10 : UnsubscribeInfo :=
  ⟨"id-w10", "s@x.example", "Subj", ["http://a.example", "http://b.example"],
   none, "", 0, 0, ""⟩

theorem unclear_visit_counts_as_success_witness :
    unsubscribe httpW10 infoW10 =
      [("link_1", "Visited http://a.example but unclear if unsubscribed successfully")] ∧
    overallSuccess (unsubscribe httpW10 infoW10) = true := by
  have h := unclear_visit_counts_as_success httpW10 infoW10 "http://a.example"
    ["http://b.example"] ⟨"hello world", []⟩ rfl (by decide) (by decide) rfl rfl
  refine ⟨h.2.2.1.trans ?_, h.2.2.2⟩
  rw [h.1]
  decide

/-- C4 amended: with no mailto target, two links, the first timing out and
the second answering a non-200 status, the executor records exactly two
outcomes and no exception escapes — provided neither link URL itself
contains "success" (case-insensitively); then both outcomes are classified
as not succeeded. -/
theorem resilience_two_failures (http : String → HttpResult)
    (info : UnsubscribeInfo) (l1 l2 : String) (code : Nat) (pg : Page)
    (hemail : info.unsubscribe_email = none)
    (hlinks : info.unsubscribe_links = [l1, l2])
    (h1 : http l1 = .timeout)
    (h2 : http l2 = .resp code pg)
    (hcode : code ≠ 200)
    (hc1 : pyIn "success" (pyLower l1) = false)
    (hc2 : pyIn "success" (pyLower l2) = false) :
    unsubscribe http info =
      [("link_1", "Timeout accessing: " ++ l1),
       ("link_2", "Failed to visit " ++ l2 ++ " - Status Code: " ++ natToDec code)] ∧
    (unsubscribe http info).length = 2 ∧
    (unsubscribe http info).all (fun pr => !outcomeSucceeded pr.2) = true := by
  have hvia1 : unsubscribe_via_link http l1 = "Timeout accessing: " ++ l1 := by
    unfold unsubscribe_via_link
    rw [h1]
  have hvia2 : unsubscribe_via_link http l2 =
      "Failed to visit " ++ l2 ++ " - Status Code: " ++ natToDec code := by
    unfold unsubscribe_via_link
    rw [h2]
    split
    · next heq => exact absurd (by injection heq) hcode
    · next status pg' heq =>
        injection heq with ha hb
        rw [ha]
    · next heq => exact absurd heq (by intro h; cases h)
    · next e heq => exact absurd heq (by intro h; cases h)
  have hns1 : outcomeSucceeded (unsubscribe_via_link http l1) = false := by
    rw [hvia1]
    exact timeout_text_not_success hc1
  have hns2 : outcomeSucceeded (unsubscribe_via_link http l2) = false := by
    rw [hvia2]
    exact failed_text_not_success code hc2
  have hlab1 : "link_" ++ natToDec (0 + 1) = "link_1" := by decide
  have hlab2 : "link_" ++ natToDec (0 + 1 + 1) = "link_2" := by decide
  have hloop : unsubscribeLinksLoop http [l1, l2] 0 =
      [("link_1", unsubscribe_via_link http l1),
       ("link_2", unsubscribe_via_link http l2)] := by
    have e1 : strContainsL "success".data (pyLower (unsubscribe_via_link http l1)).data
        = false := hns1
    have e2 : strContainsL "success".data (pyLower (unsubscribe_via_link http l2)).data
        = false := hns2
    unfold unsubscribeLinksLoop
    simp only [e1, Bool.false_eq_true, if_false, hlab1]
    unfold unsubscribeLinksLoop
    simp only [e2, Bool.false_eq_true, if_false, hlab2]
    rfl
  have hmain : unsubscribe http info =
      [("link_1", unsubscribe_via_link http l1),
       ("link_2", unsubscribe_via_link http l2)] := by
    unfold unsubscribe
    rw [hemail, hlinks, hloop]
    split <;> rfl
  refine ⟨?_, ?_, ?_⟩
  · rw [hmain, hvia1, hvia2]
  · rw [hmain]
    rfl
  · rw [hmain]
    simp [List.all_cons, hns1, hns2]

/-- The network of the C4 witness: the first link times out, everything else
answers 404. -/
def httpW4 : String → HttpResult := fun l =>
  if l = "http://t.example/a" then .timeout else .resp 404 ⟨"", []⟩

/-- The candidate of the C4 witness. -/
def infoW4 : UnsubscribeInfo :=
  ⟨"id-w4", "s@x.example", "Subj", ["http://t.example/a", "http://u.example/b"],
   none, "", 0, 0, ""⟩

theorem resilience_two_failures_witness :
    unsubscribe httpW4 infoW4 =
      [("link_1", "Timeout accessing: http://t.example/a"),
       ("link_2", "Failed to visit http://u.example/b - Status Code: 404")] ∧
    (unsubscribe httpW4 infoW4).length = 2 ∧
    (unsubscribe httpW4 infoW4).all (fun pr => !outcomeSucceeded pr.2) = true := by
  have h := resilience_two_failures httpW4 infoW4 "http://t.example/a"
    "http://u.example/b" 404 ⟨"", []⟩ rfl rfl rfl rfl (by decide) (by decide) (by decide)
  exact ⟨h.1.trans (by decide), h.2.1, h.2.2⟩

/-- The network of the C4 counterexample: the first link (whose URL contains
"success") times out, everything else answers 404. -/
def httpCex : String → HttpResult := fun l =>
  if l = "http://success.example/a" then .timeout else .resp 404 ⟨"", []⟩

/-- The candidate of the C4 counterexample. -/
def infoCex : UnsubscribeInfo :=
  ⟨"id-c4", "s@x.example", "Subj", ["http://success.example/a", "http://b.example"],
   none, "", 0, 0, ""⟩

/-- C4 counterexample: in the claimed scenario (first link times out, second
would answer non-200, no mailto target), a first URL containing "success"
makes the timeout outcome text contain "success": it is classified as
succeeded, the loop short-circuits, and only ONE outcome is recorded instead
of the claimed two not-succeeded outcomes. -/
theorem resilience_counterexample :
    httpCex "http://success.example/a" = .timeout ∧
    httpCex "http://b.example" = .resp 404 ⟨"", []⟩ ∧
    (unsubscribe httpCex infoCex).length = 1 ∧
    overallSuccess (unsubscribe httpCex infoCex) = true := by
  refine ⟨rfl, rfl, ?_, ?_⟩ <;> decide

/-- The link loop attempts a prefix of the stored list, first to last: the
recorded outcomes are `unsubscribe_via_link` of the first `n` stored links,
in stored order. -/
lemma loop_outcomes_are_stored_prefix (http : String → HttpResult) :
    ∀ (links : List String) (i : Nat), ∃ n, n ≤ links.length ∧
      (unsubscribeLinksLoop http links i).map Prod.snd =
        (links.take n).map (unsubscribe_via_link http) := by
  intro links
  induction links with
  | nil => intro i; exact ⟨0, by simp, by simp [unsubscribeLinksLoop]⟩
  | cons l rest ih =>
    intro i
    by_cases hc : strContainsL "success".data
        (pyLower (unsubscribe_via_link http l)).data = true
    · exact ⟨1, by simp, by simp [unsubscribeLinksLoop, hc]⟩
    · obtain ⟨n, hn, he⟩ := ih (i + 1)
      refine ⟨n + 1, by simpa using hn, ?_⟩
      simp [unsubscribeLinksLoop, hc, he]

/-- C2 amended: for a FIXED candidate the execution order is deterministic —
the link_1, link_2, ... attempts walk the stored `unsubscribe_links` list
first to last, stopping after some prefix (the success short-circuit).  The
stored order itself, however, comes from `list(set(...))` and is not stable
across runs (see the counterexample). -/
theorem execution_enumerates_stored_order (http : String → HttpResult)
    (info : UnsubscribeInfo) :
    ∃ n, n ≤ info.unsubscribe_links.length ∧
      (unsubscribe http info).map Prod.snd =
        (if info.list_unsubscribe_header ≠ "" then
          (match info.unsubscribe_email with
           | some addr => [unsubscribe_via_email addr]
           | none => [])
         else []) ++
        ((info.unsubscribe_links.take n).map (unsubscribe_via_link http)) := by
  obtain ⟨n, hn, he⟩ := loop_outcomes_are_stored_prefix http info.unsubscribe_links 0
  refine ⟨n, hn, ?_⟩
  unfold unsubscribe
  rw [List.map_append, he]
  congr 1
  split
  · split <;> rfl
  · rfl

/-- An HTML body with two distinct matching unsubscribe anchors. -/
def docTwo : HtmlDoc :=
  ⟨"x",
   [⟨"http://a.example/unsubscribe", "go"⟩, ⟨"http://b.example/unsubscribe", "go"⟩],
   []⟩

/-- A message carrying the two distinct body links. -/
def msgTwo : EmailMsg :=
  ⟨some "a@b.example", some "Hi", some "id-5", none, none,
   .single ⟨"text/html", .html docTwo⟩⟩

/-- A network where every link answers 404 (so no short-circuit fires). -/
def httpDown : String → HttpResult := fun _ => .resp 404 ⟨"", []⟩

/-- C2 counterexample: two admissible enumerations of `list(set(...))` (two
possible runs under Python's per-process string-hash randomisation) analyze
the same message into candidates with the same link SET but execute the link
attempts in different orders, refuting cross-run stability of the
enumeration. -/
theorem execution_order_counterexample :
    IsSetDedup (fun xs : List String => xs.dedup) ∧
    IsSetDedup (fun xs : List String => xs.dedup.reverse) ∧
    ((analyze_email_content 0 (fun _ => none) (fun xs => xs.dedup)
        msgTwo).unsubscribe_links.Perm
      (analyze_email_content 0 (fun _ => none) (fun xs => xs.dedup.reverse)
        msgTwo).unsubscribe_links) ∧
    (unsubscribe httpDown (analyze_email_content 0 (fun _ => none) (fun xs => xs.dedup)
        msgTwo)).map Prod.snd ≠
      (unsubscribe httpDown (analyze_email_content 0 (fun _ => none)
        (fun xs => xs.dedup.reverse) msgTwo)).map Prod.snd :=
  ⟨isSetDedup_dedup, isSetDedup_dedupRev, by decide, by decide⟩
